import Mathlib

/-!
Verification of the PyHIS core lazy-loading / caching state machine

Shallow embedding of `pyhis/core.py`: the entity model (`Source`, `Site`,
`TimeSeries`, `Variable`, `Units`) and the lazy materialization logic of its
property accessors.  Remote calls through the suds client and cache-module
accesses are recorded as explicit events; the remote gateway and the cache
store are modelled as deterministic oracles (`Gateway`, `CacheEnv`), since
both are external collaborators of this core.  Python exceptions are
modelled with `Except`; mutations performed before a `raise` persist in the
returned state, exactly as in Python.  Object back-references
(`Site.source`, `TimeSeries.site`) are flattened to the identity fields the
code actually reads (the source URL; the network and code of the owning site),
with the gateway handle passed as an explicit argument.
-/

namespace PyHIS

/-- A calendar date, standing in for a Python `datetime`.  Only the
`strftime` with format year-month-day (as used by
`TimeSeries._update_series`) is needed. -/
structure Date where
  year : Nat
  month : Nat
  day : Nat
deriving DecidableEq, Repr

/-- Zero-pad a numeral to the given width, as `strftime` does. -/
def padZeros (width : Nat) (n : Nat) : String :=
  let s := toString n
  if s.length < width then String.mk (List.replicate (width - s.length) '0') ++ s
  else s

/-- Python `datetime.strftime` with the year-month-day format string used in
`TimeSeries._update_series`. -/
def Date.strftimeYMD (d : Date) : String :=
  padZeros 4 d.year ++ "-" ++ padZeros 2 d.month ++ "-" ++ padZeros 2 d.day

/-- A planar point, standing in for `shapely.geometry.Point(longitude,
latitude)`: `x` is the longitude, `y` the latitude. -/
structure Point where
  x : Int
  y : Int
deriving DecidableEq, Repr

/-- Model of `Units.__init__`: immutable descriptor of a unit of measurement. -/
structure Units where
  name : String
  abbreviation : String
  code : String
deriving DecidableEq, Repr

/-- Model of `Variable.__init__`: immutable descriptor of a measured variable.
(`variable` is a Lean keyword, so the field holding one is called `var`
at use sites.) -/
structure Variable where
  name : String
  code : String
  id : String
  vocabulary : String
  units : Option Units
  no_data_value : Int
deriving DecidableEq, Repr

/-- One (timestamp, measurement) point of a fetched value series. -/
structure TSValue where
  timestamp : Nat
  value : Int
deriving DecidableEq, Repr

/-- The physical quantity / unit descriptor attached to a fetched value
series (`TimeSeries._quantity`). -/
abbrev Quantity := String

/-- Modelled from the spec: one series descriptor inside a site-detail
series catalog of a payload (the wire element that
`util._timeseries_from_wml_series` — a module of this repository that is
not under src/ — converts into a `TimeSeries`).  It carries the fields of
the `TimeSeries` identity tuple: variable, date range, method,
quality-control level and count. -/
structure WmlSeries where
  var : Variable
  count : Nat
  method : String
  quality_control_level : String
  beginDate : Date
  endDate : Date
deriving DecidableEq, Repr

/-- A series catalog inside a site-detail payload: `seriesCatalog[i].series`
in `core.py`. -/
structure WmlSeriesCatalog where
  series : List WmlSeries
deriving DecidableEq, Repr

/-- One site entry of a site-detail payload: `site_info.site[i]` in
`core.py`. -/
structure WmlSiteEntry where
  seriesCatalog : List WmlSeriesCatalog
deriving DecidableEq, Repr

/-- The site-detail payload returned by the remote `GetSiteInfoObject`
operation. -/
structure SiteInfoResponse where
  site : List WmlSiteEntry
deriving DecidableEq, Repr

/-- Modelled from the spec: one site descriptor returned by the remote
`GetSites` (list-sites) operation, carrying the fields that
`util._site_from_wml_siteInfo` (not under src/) copies into a `Site`. -/
structure WmlSiteInfo where
  network : String
  code : String
  name : String
  id : String
  latitude : Int
  longitude : Int
deriving DecidableEq, Repr

/-- The payload returned by the remote `GetSites` operation. -/
structure GetSitesResponse where
  site : List WmlSiteInfo
deriving DecidableEq, Repr

/-- The payload returned by the remote `GetValuesObject` operation, already
carrying the data that `util._pandas_series_from_wml_TimeSeriesResponseType`
extracts (value series and unit descriptor). -/
structure TimeSeriesResponseType where
  values : List TSValue
  unit : String
deriving DecidableEq, Repr

/-- Model of `TimeSeries.__init__` state.  `site` back-reference flattened to the two
identity fields the code reads (`self.site.network`, `self.site.code`);
`_series`/`_quantity` are the lazy backing fields, with the class-attribute
defaults `()` and `None`. -/
structure TimeSeries where
  var : Variable
  count : Nat
  method : String
  quality_control_level : String
  begin_datetime : Date
  end_datetime : Date
  siteNetwork : String
  siteCode : String
  _series : List TSValue
  _quantity : Option Quantity
deriving DecidableEq, Repr

/-- The derived tabular view (`pandas.DataFrame(ts_dict)`): a mapping from
variable code to the value series of that variable. -/
abbrev DataFrame := List (String × List TSValue)

/-- Model of `Site.__init__` state.  `source` back-reference flattened to the owning
URL of the owning source (`sourceUrl`); the gateway handle is passed to the accessors
explicitly.  `_timeseries_list`, `_dataframe` and `_site_info` are the lazy
backing fields, with the class-attribute defaults `()`, `None`, `None`. -/
structure Site where
  code : String
  name : String
  id : String
  network : String
  location : Point
  sourceUrl : Option String
  _use_cache : Bool
  _timeseries_list : List TimeSeries
  _dataframe : Option DataFrame
  _site_info : Option SiteInfoResponse
deriving DecidableEq, Repr

/-- Model of `Source.__init__` state.  The suds client handle is modelled by the
`Gateway` argument of the accessors; `_sites` is the lazy backing mapping
(class-attribute default of an empty dict). -/
structure Source where
  url : String
  _use_cache : Bool
  _sites : List (String × Site)
deriving DecidableEq, Repr

/-- The Remote Service Gateway (the service object of the suds client) as a
deterministic oracle: each operation is a pure function of its request. -/
structure Gateway where
  GetSites : String → GetSitesResponse
  GetSiteInfoObject : String → SiteInfoResponse
  GetValuesObject : String → String → String → String → TimeSeriesResponseType

/-- Modelled from the spec: the optional cache module (repository code not
under src/).  `available` is false when the module import fails or
`USE_CACHE` is off; the two `cached*` fields are the (deterministic)
results of `_get_cached_sites` / `_get_cached_timeseries_list` for the
entity under consideration. -/
structure CacheEnv where
  available : Bool
  cachedSites : List (String × Site)
  cachedTimeseriesList : List TimeSeries

/-- Observable collaborator interactions, in the order they are issued.
The first three constructors are remote (network) operations; the cache
constructors are local cache-store accesses. -/
inductive Event where
  | getSites (filter : String)
  | getSiteInfo (key : String)
  | getValues (siteKey : String) (varKey : String) (beginDate : String) (endDate : String)
  | cacheGetSites
  | cacheGetTimeseriesList
  | cachePutSites (siteList : List Site)
  | cachePutTimeseries (tsList : List TimeSeries)
deriving DecidableEq, Repr

/-- Whether an event is a remote (network) call, as opposed to a cache
access. -/
def Event.isRemote : Event → Bool
  | .getSites _ => true
  | .getSiteInfo _ => true
  | .getValues _ _ _ _ => true
  | _ => false

/-- Number of remote calls in a trace. -/
def countRemote (es : List Event) : Nat := (es.filter Event.isRemote).length

/-- Python exceptions raised (or propagated) by this core. -/
inductive Err where
  | notImplementedError (msg : String)
  | indexError
  | typeError (msg : String)
deriving DecidableEq, Repr

/-- The message of the unrecoverable-shape error raised by
`Site._update_site_info`. -/
def multiShapeMsg : String :=
  "Multiple site instances or multiple seriesCatalogs not currently supported"

/-- Result of running one accessor or update method: the entity state after
the call (mutations before a raise persist, as in Python), the trace of
collaborator events it issued, and its outcome. -/
structure Res (σ : Type) (α : Type) where
  state : σ
  events : List Event
  val : Except Err α

/-- Python-dict construction from a list of key/value pairs: later pairs
overwrite earlier ones with the same key. -/
def dictInsert {α : Type} (d : List (String × α)) (k : String) (v : α) :
    List (String × α) :=
  if d.any (fun p => p.1 == k) then d.map (fun p => if p.1 == k then (k, v) else p)
  else d ++ [(k, v)]

/-- Python dict construction from pairs, `dict(pairs)`. -/
def dictFromPairs {α : Type} (ps : List (String × α)) : List (String × α) :=
  ps.foldl (fun d p => dictInsert d p.1 p.2) []

/-- Model of `Units.__init__`.  Paired with its (empty) collaborator-event trace to
record that construction performs no I/O. -/
def Units.init (name abbreviation code : String) : Units × List Event :=
  (⟨name, abbreviation, code⟩, [])

/-- Model of `Variable.__init__`, with its (empty) collaborator-event trace. -/
def Variable.init (name code id vocabulary : String) (units : Option Units)
    (no_data_value : Int) : Variable × List Event :=
  (⟨name, code, id, vocabulary, units, no_data_value⟩, [])

/-- Model of `TimeSeries.__init__`, with its (empty) collaborator-event trace. -/
def TimeSeries.init (v : Variable) (count : Nat)
    (method quality_control_level : String) (begin_datetime end_datetime : Date)
    (siteNetwork siteCode : String) : TimeSeries × List Event :=
  (⟨v, count, method, quality_control_level, begin_datetime, end_datetime,
    siteNetwork, siteCode, [], none⟩, [])

/-- Model of `Site.__init__`, with its (empty) collaborator-event trace.  It stores
`shapely.geometry.Point(longitude, latitude)` in `location`. -/
def Site.init (code name id network : String) (latitude longitude : Int)
    (sourceUrl : Option String) (use_cache : Bool) : Site × List Event :=
  (⟨code, name, id, network, ⟨longitude, latitude⟩, sourceUrl, use_cache,
    [], none, none⟩, [])

/-- Model of `Source.__init__`, with its (empty) collaborator-event trace.  The suds
client it creates is the gateway handle, passed to the accessors as an
argument; creating that handle is transport-collaborator behavior outside
this core, and none of the three data operations is invoked here. -/
def Source.init (wsdl_url : String) (use_cache : Bool) : Source × List Event :=
  (⟨wsdl_url, use_cache, []⟩, [])

/-- Model of `Site.latitude` property. -/
def Site.latitude (s : Site) : Int := s.location.y

/-- Model of `Site.longitude` property. -/
def Site.longitude (s : Site) : Int := s.location.x

/-- Modelled from the spec: `util._site_from_wml_siteInfo` (repository code
not under src/) converts one site descriptor of the list-sites payload into
a `Site` instance bound to the fetching source. -/
def _site_from_wml_siteInfo (d : WmlSiteInfo) (sourceUrl : String) : Site :=
  (Site.init d.code d.name d.id d.network d.latitude d.longitude
    (some sourceUrl) true).1

/-- Modelled from the spec: `util._timeseries_from_wml_series` (repository
code not under src/) converts one series descriptor of a site-detail
catalog of a payload into a `TimeSeries` owned by the given site. -/
def _timeseries_from_wml_series (w : WmlSeries) (site : Site) : TimeSeries :=
  (TimeSeries.init w.var w.count w.method w.quality_control_level
    w.beginDate w.endDate site.network site.code).1

/-- Modelled from the spec: `util._pandas_series_from_wml_TimeSeriesResponseType`
(repository code not under src/) parses a get-values payload into the value
series and the quantity descriptor. -/
def _pandas_series_from_wml_TimeSeriesResponseType
    (resp : TimeSeriesResponseType) : List TSValue × Quantity :=
  (resp.values, resp.unit)

/-- Model of `Site._update_site_info`: issue `GetSiteInfoObject`, store the payload
in `_site_info`, then raise the unrecoverable-shape error when the payload
has more than one site entry or its first entry has more than one series
catalog (and an index error when it has no site entry at all, as
`self._site_info.site[0]` would).  Note the store happens before the
check, as in the source. -/
def Site._update_site_info (gw : Gateway) (s : Site) : Res Site Unit :=
  let key := s.network ++ ":" ++ s.code
  let resp := gw.GetSiteInfoObject key
  let s1 : Site := { s with _site_info := some resp }
  let ev := [Event.getSiteInfo key]
  if 1 < resp.site.length then
    ⟨s1, ev, .error (Err.notImplementedError multiShapeMsg)⟩
  else
    match resp.site with
    | [] => ⟨s1, ev, .error Err.indexError⟩
    | entry :: _ =>
      if 1 < entry.seriesCatalog.length then
        ⟨s1, ev, .error (Err.notImplementedError multiShapeMsg)⟩
      else ⟨s1, ev, .ok ()⟩

/-- Model of `Site.site_info` property: populate `_site_info` via
`_update_site_info` when it is unset, then return it.  (The final branch is
unreachable: `_update_site_info` always stores the payload.) -/
def Site.site_info (gw : Gateway) (s : Site) : Res Site SiteInfoResponse :=
  match s._site_info with
  | some info => ⟨s, [], .ok info⟩
  | none =>
    let r := Site._update_site_info gw s
    match r.val, r.state._site_info with
    | .error e, _ => ⟨r.state, r.events, .error e⟩
    | .ok _, some info => ⟨r.state, r.events, .ok info⟩
    | .ok _, none => ⟨r.state, r.events, .error Err.indexError⟩

/-- The non-cache-hit part of `Site._update_timeseries_list`: read the
`site_info` property (fetching it as a prerequisite when unset), extract
`site[0].seriesCatalog[0].series`, materialize the `TimeSeries` list, and
write it back to the cache when caching is enabled. -/
def Site.buildTimeseriesListRemote (gw : Gateway) (cacheEnabled : Bool)
    (s : Site) : Res Site Unit :=
  let r := Site.site_info gw s
  match r.val with
  | .error e => ⟨r.state, r.events, .error e⟩
  | .ok info =>
    match info.site with
    | [] => ⟨r.state, r.events, .error Err.indexError⟩
    | entry :: _ =>
      match entry.seriesCatalog with
      | [] => ⟨r.state, r.events, .error Err.indexError⟩
      | cat :: _ =>
        let tsl := cat.series.map (fun w => _timeseries_from_wml_series w r.state)
        let s2 : Site := { r.state with _timeseries_list := tsl }
        if cacheEnabled then
          ⟨s2, r.events ++ [Event.cachePutTimeseries tsl], .ok ()⟩
        else ⟨s2, r.events, .ok ()⟩

/-- Model of `Site._update_timeseries_list`: adopt the cached list when caching is
enabled and the cache returns a non-empty one, otherwise build it from the
site-detail payload. -/
def Site._update_timeseries_list (gw : Gateway) (env : CacheEnv) (s : Site) :
    Res Site Unit :=
  if s._use_cache && env.available then
    match env.cachedTimeseriesList with
    | [] =>
      let r := Site.buildTimeseriesListRemote gw true s
      ⟨r.state, Event.cacheGetTimeseriesList :: r.events, r.val⟩
    | c :: cs =>
      ⟨{ s with _timeseries_list := c :: cs }, [Event.cacheGetTimeseriesList], .ok ()⟩
  else Site.buildTimeseriesListRemote gw false s

/-- Model of `Site.timeseries_list` property: populate `_timeseries_list` when its
length is zero, then return it. -/
def Site.timeseries_list (gw : Gateway) (env : CacheEnv) (s : Site) :
    Res Site (List TimeSeries) :=
  match s._timeseries_list with
  | t :: ts => ⟨s, [], .ok (t :: ts)⟩
  | [] =>
    let r := Site._update_timeseries_list gw env s
    match r.val with
    | .error e => ⟨r.state, r.events, .error e⟩
    | .ok _ => ⟨r.state, r.events, .ok r.state._timeseries_list⟩

/-- Model of `TimeSeries._update_series`: issue `GetValuesObject` keyed by
network:code and vocabulary:code with the formatted date bounds, and assign
both `_series` and `_quantity` from the parsed response in one step. -/
def TimeSeries._update_series (gw : Gateway) (ts : TimeSeries) :
    Res TimeSeries Unit :=
  let siteKey := ts.siteNetwork ++ ":" ++ ts.siteCode
  let varKey := ts.var.vocabulary ++ ":" ++ ts.var.code
  let b := ts.begin_datetime.strftimeYMD
  let e := ts.end_datetime.strftimeYMD
  let parsed := _pandas_series_from_wml_TimeSeriesResponseType
    (gw.GetValuesObject siteKey varKey b e)
  ⟨{ ts with _series := parsed.1, _quantity := some parsed.2 },
   [Event.getValues siteKey varKey b e], .ok ()⟩

/-- Model of `TimeSeries.series` property: populate via `_update_series` when the
stored series has length zero, then return it. -/
def TimeSeries.series (gw : Gateway) (ts : TimeSeries) :
    Res TimeSeries (List TSValue) :=
  match ts._series with
  | v :: vs => ⟨ts, [], .ok (v :: vs)⟩
  | [] =>
    let r := TimeSeries._update_series gw ts
    ⟨r.state, r.events, .ok r.state._series⟩

/-- Model of `TimeSeries.quantity` property: populate via `_update_series` when
`_quantity` is unset, then return it. -/
def TimeSeries.quantity (gw : Gateway) (ts : TimeSeries) :
    Res TimeSeries (Option Quantity) :=
  match ts._quantity with
  | some q => ⟨ts, [], .ok (some q)⟩
  | none =>
    let r := TimeSeries._update_series gw ts
    ⟨r.state, r.events, .ok r.state._quantity⟩

/-- The loop body of the dict comprehension in `Site._update_dataframe`:
access the `series` property of one time series (fetching when empty) and record
the updated object and the events it issued. -/
def dataframeFoldStep (gw : Gateway) (acc : List TimeSeries × List Event)
    (ts : TimeSeries) : List TimeSeries × List Event :=
  let r := TimeSeries.series gw ts
  (acc.1 ++ [r.state], acc.2 ++ r.events)

/-- Model of `Site._update_dataframe`: read the `timeseries_list` property, access
the `series` of each member (mutating the members in place), and store the
variable-code-keyed table. -/
def Site._update_dataframe (gw : Gateway) (env : CacheEnv) (s : Site) :
    Res Site Unit :=
  let r := Site.timeseries_list gw env s
  match r.val with
  | .error e => ⟨r.state, r.events, .error e⟩
  | .ok tsl =>
    let folded := tsl.foldl (dataframeFoldStep gw) ([], [])
    let pairs := folded.1.map (fun ts => (ts.var.code, ts._series))
    let s2 : Site := { r.state with
      _timeseries_list := folded.1,
      _dataframe := some (dictFromPairs pairs) }
    ⟨s2, r.events ++ folded.2, .ok ()⟩

/-- Python truthiness of a stored pandas DataFrame: `len(df)` is the length
of the union of the column indices, so the table is truthy exactly when
the series of some column is non-empty. -/
def dfTruthy (df : DataFrame) : Bool := df.any (fun c => !c.2.isEmpty)

/-- The second half of the `Site.dataframe` property body: rebuild the
table via `_update_dataframe` when the stored one is unset or falsy, then
return it.  (`ev` is the trace accumulated by the first half; the `getD`
default is unreachable since `_update_dataframe` always stores a table.) -/
def Site.dataframeFinish (gw : Gateway) (env : CacheEnv) (ev : List Event)
    (s : Site) : Res Site DataFrame :=
  let truthy := match s._dataframe with
    | none => false
    | some df => dfTruthy df
  if truthy then ⟨s, ev, .ok (s._dataframe.getD [])⟩
  else
    let r := Site._update_dataframe gw env s
    match r.val with
    | .error e => ⟨r.state, ev ++ r.events, .error e⟩
    | .ok _ => ⟨r.state, ev ++ r.events, .ok (r.state._dataframe.getD [])⟩

/-- Model of `Site.dataframe` property: when `_timeseries_list` is empty it first
calls `_update_site_info` directly (not the `site_info` property), then
rebuilds the table when the stored one is unset or falsy. -/
def Site.dataframe (gw : Gateway) (env : CacheEnv) (s : Site) :
    Res Site DataFrame :=
  match s._timeseries_list with
  | _ :: _ => Site.dataframeFinish gw env [] s
  | [] =>
    let r := Site._update_site_info gw s
    match r.val with
    | .error e => ⟨r.state, r.events, .error e⟩
    | .ok _ => Site.dataframeFinish gw env r.events r.state

/-- The non-cache-hit part of `Source._update_sites`: issue `GetSites`
with an empty filter, convert each descriptor into a `Site` bound to this
source, build the code-keyed mapping, and write the site list back to the
cache when caching is enabled. -/
def Source.fetchSitesRemote (gw : Gateway) (cacheEnabled : Bool) (s : Source) :
    Res Source Unit :=
  let resp := gw.GetSites ""
  let siteList := resp.site.map (fun d => _site_from_wml_siteInfo d s.url)
  let s2 : Source :=
    { s with _sites := dictFromPairs (siteList.map (fun t => (t.code, t))) }
  if cacheEnabled then
    ⟨s2, [Event.getSites "", Event.cachePutSites siteList], .ok ()⟩
  else ⟨s2, [Event.getSites ""], .ok ()⟩

/-- Model of `Source._update_sites`: adopt the cached mapping when caching is
enabled and the cache returns a non-empty one, otherwise fetch remotely. -/
def Source._update_sites (gw : Gateway) (env : CacheEnv) (s : Source) :
    Res Source Unit :=
  if s._use_cache && env.available then
    match env.cachedSites with
    | [] =>
      let r := Source.fetchSitesRemote gw true s
      ⟨r.state, Event.cacheGetSites :: r.events, r.val⟩
    | c :: cs => ⟨{ s with _sites := c :: cs }, [Event.cacheGetSites], .ok ()⟩
  else Source.fetchSitesRemote gw false s

/-- Model of `Source.sites` property: populate `_sites` when the mapping is empty,
then return it. -/
def Source.sites (gw : Gateway) (env : CacheEnv) (s : Source) :
    Res Source (List (String × Site)) :=
  match s._sites with
  | p :: ps => ⟨s, [], .ok (p :: ps)⟩
  | [] =>
    let r := Source._update_sites gw env s
    ⟨r.state, r.events, .ok r.state._sites⟩

/-- Model of `Source.__len__`: evaluates `len(self._sites)` but has no return
statement, so it returns `None`. -/
def Source.lenMethod (s : Source) : Option Nat :=
  let _ := s._sites.length
  none

/-- The built-in `len(...)` protocol applied to a `Source`: it requires
`__len__` to return an integer and raises a `TypeError` when it returns
`None`. -/
def builtinLen (s : Source) : Except Err Nat :=
  match Source.lenMethod s with
  | some n => .ok n
  | none => .error (Err.typeError "object of type NoneType cannot be interpreted as an integer")

/-- The shape condition under which `Site._update_site_info` raises the
unrecoverable-shape error: more than one site entry, or a single site entry
with more than one series catalog. -/
def multiShape (p : SiteInfoResponse) : Bool :=
  decide (1 < p.site.length) ||
    (match p.site with
     | [e] => decide (1 < e.seriesCatalog.length)
     | _ => false)

/-- Reachable `TimeSeries` states under a fixed gateway: freshly
constructed (by `__init__` or by `util._timeseries_from_wml_series`), or
the state left behind by a `series` or `quantity` property access. -/
inductive TSReach (gw : Gateway) : TimeSeries → Prop where
  | init (v : Variable) (ct : Nat) (m q : String) (b e : Date) (sn sc : String) :
      TSReach gw (TimeSeries.init v ct m q b e sn sc).1
  | fromWml (w : WmlSeries) (site : Site) :
      TSReach gw (_timeseries_from_wml_series w site)
  | seriesStep (ts : TimeSeries) : TSReach gw ts →
      TSReach gw (TimeSeries.series gw ts).state
  | quantityStep (ts : TimeSeries) : TSReach gw ts →
      TSReach gw (TimeSeries.quantity gw ts).state

/-! ## Concrete fixtures used by witnesses and counterexamples -/

/-- A cache environment with the cache module unavailable. -/
def envOff : CacheEnv := ⟨false, [], []⟩

/-- A variable descriptor fixture. -/
def var0 : Variable := ⟨"Streamflow", "00060", "1", "NWIS", none, -9999⟩

/-- A series descriptor fixture. -/
def wmlSeries0 : WmlSeries := ⟨var0, 3, "m1", "qc1", ⟨2010, 1, 2⟩, ⟨2010, 3, 4⟩⟩

/-- A well-formed site-detail payload: one site entry, one series catalog,
one series. -/
def payload0 : SiteInfoResponse := ⟨[⟨[⟨[wmlSeries0]⟩]⟩]⟩

/-- A list-sites descriptor fixture. -/
def d0 : WmlSiteInfo := ⟨"NWISDV", "01234", "Example", "1", 30, -97⟩

/-- A gateway whose list-sites returns one site and whose detail and values
payloads are well formed and non-empty. -/
def gwOne : Gateway :=
  ⟨fun _ => ⟨[d0]⟩, fun _ => payload0, fun _ _ _ _ => ⟨[⟨0, 5⟩], "cfs"⟩⟩

/-- A gateway whose list-sites returns no sites, whose site-detail payload
has one site entry with one empty series catalog, and whose get-values
payload carries an empty value series. -/
def gwEmpty : Gateway :=
  ⟨fun _ => ⟨[]⟩, fun _ => ⟨[⟨[⟨[]⟩]⟩]⟩, fun _ _ _ _ => ⟨[], "m"⟩⟩

/-- A gateway whose site-detail payload has two site entries (the
unrecoverable shape). -/
def gwMulti : Gateway :=
  ⟨fun _ => ⟨[]⟩, fun _ => ⟨[⟨[]⟩, ⟨[]⟩]⟩, fun _ _ _ _ => ⟨[], "m"⟩⟩

/-- A freshly constructed source with caching disabled. -/
def srcFresh : Source := (Source.init "http://example.org/wml" false).1

/-- A freshly constructed source with caching enabled. -/
def srcCache : Source := (Source.init "http://example.org/wml" true).1

/-- A freshly constructed site with caching disabled. -/
def siteFresh : Site :=
  (Site.init "01234" "Example" "1" "NWISDV" 30 (-97) (some "http://example.org/wml") false).1

/-- A site whose detail payload is already populated with one site entry
holding one empty series catalog. -/
def sitePopEmptyCatalog : Site :=
  { siteFresh with _site_info := some ⟨[⟨[⟨[]⟩]⟩]⟩ }

/-- A freshly constructed time series. -/
def ts0 : TimeSeries :=
  (TimeSeries.init var0 3 "m1" "qc1" ⟨2010, 1, 2⟩ ⟨2010, 3, 4⟩ "NWISDV" "01234").1

/-- A cache environment holding one cached site. -/
def envCachedSites : CacheEnv := ⟨true, [("01234", siteFresh)], []⟩

/-- A cache environment that is available but empty. -/
def envCacheEmpty : CacheEnv := ⟨true, [], []⟩

/-! ## General lemmas about the accessors -/

/-- Accessor `Source.sites` always succeeds and returns the backing mapping of the
state it leaves behind. -/
theorem sites_val_ok (gw : Gateway) (env : CacheEnv) (s : Source) :
    (Source.sites gw env s).val = .ok ((Source.sites gw env s).state._sites) := by
  cases h : s._sites <;> simp [Source.sites, h]

/-- A `Source` with a non-empty site mapping returns it unchanged with no
collaborator events. -/
theorem sites_of_populated (gw : Gateway) (env : CacheEnv) (s : Source)
    (p : String × Site) (ps : List (String × Site)) (h : s._sites = p :: ps) :
    Source.sites gw env s = ⟨s, [], .ok (p :: ps)⟩ := by
  simp [Source.sites, h]

/-- When `Site.site_info` succeeds, the returned payload is the one stored
in the state it leaves behind. -/
theorem site_info_state_of_ok (gw : Gateway) (s : Site) (p : SiteInfoResponse)
    (h : (Site.site_info gw s).val = .ok p) :
    (Site.site_info gw s).state._site_info = some p := by
  unfold Site.site_info at *
  cases hsi : s._site_info with
  | some info => simp [hsi] at h ⊢; exact h
  | none =>
    simp only [hsi] at h ⊢
    cases hv : (Site._update_site_info gw s).val with
    | error e => simp [hv] at h
    | ok u =>
      cases hst : (Site._update_site_info gw s).state._site_info with
      | none => simp [hv, hst] at h
      | some info => simp [hv, hst] at h ⊢; exact h

/-- A `Site` with a populated detail payload returns it unchanged with no
collaborator events. -/
theorem site_info_of_populated (gw : Gateway) (s : Site) (p : SiteInfoResponse)
    (h : s._site_info = some p) : Site.site_info gw s = ⟨s, [], .ok p⟩ := by
  simp [Site.site_info, h]

/-- When `Site.timeseries_list` succeeds, the returned list is the one
stored in the state it leaves behind. -/
theorem timeseries_list_state_of_ok (gw : Gateway) (env : CacheEnv) (s : Site)
    (l : List TimeSeries) (h : (Site.timeseries_list gw env s).val = .ok l) :
    (Site.timeseries_list gw env s).state._timeseries_list = l := by
  unfold Site.timeseries_list at *
  cases htl : s._timeseries_list with
  | cons t ts => simp [htl] at h ⊢; simp [← h]
  | nil =>
    simp only [htl] at h ⊢
    cases hv : (Site._update_timeseries_list gw env s).val with
    | error e => simp [hv] at h
    | ok u => simp [hv] at h ⊢; exact h

/-- A `Site` with a non-empty series list returns it unchanged with no
collaborator events. -/
theorem timeseries_list_of_populated (gw : Gateway) (env : CacheEnv) (s : Site)
    (t : TimeSeries) (ts : List TimeSeries) (h : s._timeseries_list = t :: ts) :
    Site.timeseries_list gw env s = ⟨s, [], .ok (t :: ts)⟩ := by
  simp [Site.timeseries_list, h]

/-- Accessor `TimeSeries.series` always succeeds and returns the series stored in
the state it leaves behind. -/
theorem series_val_ok (gw : Gateway) (ts : TimeSeries) :
    (TimeSeries.series gw ts).val = .ok ((TimeSeries.series gw ts).state._series) := by
  cases h : ts._series <;> simp [TimeSeries.series, h]

/-- A `TimeSeries` with a non-empty stored series returns it unchanged with
no collaborator events. -/
theorem series_of_populated (gw : Gateway) (ts : TimeSeries) (v : TSValue)
    (vs : List TSValue) (h : ts._series = v :: vs) :
    TimeSeries.series gw ts = ⟨ts, [], .ok (v :: vs)⟩ := by
  simp [TimeSeries.series, h]

/-- Accessor `TimeSeries.quantity` always succeeds and returns the quantity stored
in the state it leaves behind. -/
theorem quantity_val_ok (gw : Gateway) (ts : TimeSeries) :
    (TimeSeries.quantity gw ts).val = .ok ((TimeSeries.quantity gw ts).state._quantity) := by
  cases h : ts._quantity <;> simp [TimeSeries.quantity, h]

/-- A `TimeSeries` with a populated quantity returns it unchanged with no
collaborator events. -/
theorem quantity_of_populated (gw : Gateway) (ts : TimeSeries) (q : Quantity)
    (h : ts._quantity = some q) :
    TimeSeries.quantity gw ts = ⟨ts, [], .ok (some q)⟩ := by
  simp [TimeSeries.quantity, h]

/-- When `Site.dataframe` succeeds, the returned table is the one stored in
the state it leaves behind (up to the unreachable `getD` default). -/
theorem dataframe_state_of_ok (gw : Gateway) (env : CacheEnv) (s : Site)
    (df : DataFrame) (h : (Site.dataframe gw env s).val = .ok df) :
    (Site.dataframe gw env s).state._dataframe.getD [] = df := by
  unfold Site.dataframe at *
  cases htl : s._timeseries_list with
  | cons t ts =>
    simp only [htl] at h ⊢
    unfold Site.dataframeFinish at *
    cases hdf : s._dataframe with
    | none =>
      simp only [hdf] at h ⊢
      cases hv : (Site._update_dataframe gw env s).val with
      | error e => simp [hv] at h
      | ok u => simp [hv] at h ⊢; exact h
    | some df0 =>
      by_cases ht : dfTruthy df0 = true
      · simp [hdf, ht] at h ⊢; exact h
      · simp only [hdf, Bool.not_eq_true] at ht
        simp only [hdf, ht] at h ⊢
        cases hv : (Site._update_dataframe gw env s).val with
        | error e => simp [hv] at h
        | ok u => simp [hv] at h ⊢; exact h
  | nil =>
    simp only [htl] at h ⊢
    cases hv0 : (Site._update_site_info gw s).val with
    | error e => simp [hv0] at h
    | ok u0 =>
      simp only [hv0] at h ⊢
      unfold Site.dataframeFinish at *
      cases hdf : (Site._update_site_info gw s).state._dataframe with
      | none =>
        simp only [hdf] at h ⊢
        cases hv : (Site._update_dataframe gw env (Site._update_site_info gw s).state).val with
        | error e => simp [hv] at h
        | ok u => simp [hv] at h ⊢; exact h
      | some df0 =>
        by_cases ht : dfTruthy df0 = true
        · simp [hdf, ht] at h ⊢; exact h
        · simp only [Bool.not_eq_true] at ht
          simp only [hdf, ht] at h ⊢
          cases hv : (Site._update_dataframe gw env (Site._update_site_info gw s).state).val with
          | error e => simp [hv] at h
          | ok u => simp [hv] at h ⊢; exact h

/-- A `Site` with a non-empty series list and a truthy stored table returns
the table unchanged with no collaborator events. -/
theorem dataframe_of_populated (gw : Gateway) (env : CacheEnv) (s : Site)
    (t : TimeSeries) (ts : List TimeSeries) (df : DataFrame)
    (htl : s._timeseries_list = t :: ts) (hdf : s._dataframe = some df)
    (ht : dfTruthy df = true) :
    Site.dataframe gw env s = ⟨s, [], .ok df⟩ := by
  simp [Site.dataframe, htl, Site.dataframeFinish, hdf, ht]

/-- Unfolding the fold of the dict-comprehension loop body: it appends the
post-access states and concatenates the per-series event traces. -/
theorem foldl_dataframeFoldStep (gw : Gateway) (l : List TimeSeries)
    (acc : List TimeSeries × List Event) :
    l.foldl (dataframeFoldStep gw) acc
      = (acc.1 ++ l.map (fun ts => (TimeSeries.series gw ts).state),
         acc.2 ++ (l.map (fun ts => (TimeSeries.series gw ts).events)).flatten) := by
  induction l generalizing acc with
  | nil => simp
  | cons t l ih =>
    simp [List.foldl_cons, dataframeFoldStep, ih, List.append_assoc]

/-- Flattening a map of singletons is the map itself. -/
theorem flatten_map_singleton {α β : Type} (l : List α) (f : α → β) :
    (l.map (fun a => [f a])).flatten = l.map f := by
  induction l with
  | nil => rfl
  | cons a l ih => simp [ih]

/-- A `series` access on a freshly converted time series fetches: both
backing fields are assigned from the single get-values response and one
getValues event is issued. -/
theorem series_fresh (gw : Gateway) (w : WmlSeries) (site : Site) :
    TimeSeries.series gw (_timeseries_from_wml_series w site)
      = ⟨{ (_timeseries_from_wml_series w site) with
            _series := ((gw.GetValuesObject (site.network ++ ":" ++ site.code)
              (w.var.vocabulary ++ ":" ++ w.var.code) w.beginDate.strftimeYMD
              w.endDate.strftimeYMD).values),
            _quantity := (some ((gw.GetValuesObject (site.network ++ ":" ++ site.code)
              (w.var.vocabulary ++ ":" ++ w.var.code) w.beginDate.strftimeYMD
              w.endDate.strftimeYMD).unit)) },
         [Event.getValues (site.network ++ ":" ++ site.code)
            (w.var.vocabulary ++ ":" ++ w.var.code) w.beginDate.strftimeYMD
            w.endDate.strftimeYMD],
         .ok ((gw.GetValuesObject (site.network ++ ":" ++ site.code)
            (w.var.vocabulary ++ ":" ++ w.var.code) w.beginDate.strftimeYMD
            w.endDate.strftimeYMD).values)⟩ := by
  simp [TimeSeries.series, _timeseries_from_wml_series, TimeSeries.init,
    TimeSeries._update_series, _pandas_series_from_wml_TimeSeriesResponseType]

/-- With `site_info` already populated by a one-site one-catalog payload,
`buildTimeseriesListRemote` (cache off) materializes the catalog with no
collaborator events. -/
theorem build_tsl_of_populated (gw : Gateway) (s : Site) (entry : WmlSiteEntry)
    (cat : WmlSeriesCatalog) (hsi : s._site_info = some ⟨[entry]⟩)
    (hcat : entry.seriesCatalog = [cat]) :
    Site.buildTimeseriesListRemote gw false s
      = ⟨{ s with _timeseries_list := (cat.series.map
            (fun w => _timeseries_from_wml_series w s)) }, [], .ok ()⟩ := by
  simp [Site.buildTimeseriesListRemote, site_info_of_populated gw s _ hsi, hcat]

/-- With `site_info` already populated by a one-site one-catalog payload and
caching off, the `timeseries_list` property materializes the catalog with no
collaborator events. -/
theorem timeseries_list_fresh_populated_info (gw : Gateway) (env : CacheEnv)
    (s : Site) (entry : WmlSiteEntry) (cat : WmlSeriesCatalog)
    (hcache : (s._use_cache && env.available) = false)
    (htl : s._timeseries_list = [])
    (hsi : s._site_info = some ⟨[entry]⟩) (hcat : entry.seriesCatalog = [cat]) :
    Site.timeseries_list gw env s
      = ⟨{ s with _timeseries_list := (cat.series.map
            (fun w => _timeseries_from_wml_series w s)) },
         [], .ok (cat.series.map (fun w => _timeseries_from_wml_series w s))⟩ := by
  simp [Site.timeseries_list, htl, Site._update_timeseries_list, hcache,
    build_tsl_of_populated gw s entry cat hsi hcat]

/-! ## Claim theorems -/

/-- On a payload with more than one site entry, or one site entry with more
than one series catalog, `_update_site_info` stores the payload and then
raises the unrecoverable-shape error. -/
theorem update_site_info_multiShape (gw : Gateway) (s : Site)
    (h : multiShape (gw.GetSiteInfoObject (s.network ++ ":" ++ s.code)) = true) :
    Site._update_site_info gw s
      = ⟨{ s with _site_info := some (gw.GetSiteInfoObject (s.network ++ ":" ++ s.code)) },
         [Event.getSiteInfo (s.network ++ ":" ++ s.code)],
         .error (Err.notImplementedError multiShapeMsg)⟩ := by
  unfold Site._update_site_info
  dsimp only
  split
  next h1 => rfl
  next h1 =>
    split
    next heq => simp [multiShape, heq] at h
    next entry tail heq =>
      split
      next h2 => rfl
      next h2 =>
        exfalso
        cases tail with
        | nil => simp [multiShape, heq] at h; exact h2 h
        | cons e2 t2 => rw [heq] at h1; simp at h1

/-- C1 counterexample: on a detail payload with two site entries, accessing
`timeseries_list` does raise the unrecoverable-shape error, but it does NOT
leave `_site_info` unset: the malformed payload has been committed to
`_site_info` before the raise. -/
theorem C1_counterexample :
    (Site.timeseries_list gwMulti envOff siteFresh).val
        = .error (Err.notImplementedError multiShapeMsg)
    ∧ (Site.timeseries_list gwMulti envOff siteFresh).state._site_info ≠ none
    ∧ (Site.timeseries_list gwMulti envOff siteFresh).state._timeseries_list = [] :=
  ⟨rfl, by decide, rfl⟩

/-- C1 amended: when the detail payload has more than one site entry, or a
single entry with more than one series catalog, accessing `site_info` (or
`timeseries_list`, with caching off) raises the unrecoverable-shape error
and leaves `_timeseries_list` unset — but `_site_info` is committed to the
malformed payload before the raise, not left unset. -/
theorem C1_shape_error_commits_site_info (gw : Gateway) (env : CacheEnv)
    (s : Site) (hsi : s._site_info = none) (htl : s._timeseries_list = [])
    (huse : s._use_cache = false)
    (hshape : multiShape (gw.GetSiteInfoObject (s.network ++ ":" ++ s.code)) = true) :
    (Site.site_info gw s).val = .error (Err.notImplementedError multiShapeMsg)
    ∧ (Site.site_info gw s).state._site_info
        = some (gw.GetSiteInfoObject (s.network ++ ":" ++ s.code))
    ∧ (Site.site_info gw s).state._timeseries_list = []
    ∧ (Site.timeseries_list gw env s).val = .error (Err.notImplementedError multiShapeMsg)
    ∧ (Site.timeseries_list gw env s).state._site_info
        = some (gw.GetSiteInfoObject (s.network ++ ":" ++ s.code))
    ∧ (Site.timeseries_list gw env s).state._timeseries_list = [] := by
  have hu := update_site_info_multiShape gw s hshape
  refine ⟨?_, ?_, ?_, ?_, ?_, ?_⟩
  · simp [Site.site_info, hsi, hu]
  · simp [Site.site_info, hsi, hu]
  · simp [Site.site_info, hsi, hu, htl]
  · simp [Site.timeseries_list, htl, Site._update_timeseries_list, huse,
      Site.buildTimeseriesListRemote, Site.site_info, hsi, hu]
  · simp [Site.timeseries_list, htl, Site._update_timeseries_list, huse,
      Site.buildTimeseriesListRemote, Site.site_info, hsi, hu]
  · simp [Site.timeseries_list, htl, Site._update_timeseries_list, huse,
      Site.buildTimeseriesListRemote, Site.site_info, hsi, hu]

/-- C1 witness: the amended behavior at a concrete two-entry payload. -/
theorem C1_shape_error_witness :
    (Site.site_info gwMulti siteFresh).val
        = .error (Err.notImplementedError multiShapeMsg)
    ∧ (Site.site_info gwMulti siteFresh).state._site_info
        = some (gwMulti.GetSiteInfoObject (siteFresh.network ++ ":" ++ siteFresh.code))
    ∧ (Site.site_info gwMulti siteFresh).state._timeseries_list = []
    ∧ (Site.timeseries_list gwMulti envOff siteFresh).val
        = .error (Err.notImplementedError multiShapeMsg)
    ∧ (Site.timeseries_list gwMulti envOff siteFresh).state._site_info
        = some (gwMulti.GetSiteInfoObject (siteFresh.network ++ ":" ++ siteFresh.code))
    ∧ (Site.timeseries_list gwMulti envOff siteFresh).state._timeseries_list = [] :=
  C1_shape_error_commits_site_info gwMulti envOff siteFresh rfl rfl rfl (by decide)

/-- C2 counterexample: with a gateway whose list-sites returns no sites,
two consecutive `sites` accesses return the identical (empty) value, but
two remote calls are made in total, not exactly one: the empty fetched
result is not memoized. -/
theorem C2_counterexample :
    (Source.sites gwEmpty envOff (Source.sites gwEmpty envOff srcFresh).state).val
        = (Source.sites gwEmpty envOff srcFresh).val
    ∧ countRemote ((Source.sites gwEmpty envOff srcFresh).events
        ++ (Source.sites gwEmpty envOff (Source.sites gwEmpty envOff srcFresh).state).events) = 2 :=
  ⟨rfl, by decide⟩

/-- C2 amended: provided the first access succeeds with a non-empty (truthy)
result, a second access to any lazy accessor returns the identical value and
issues no collaborator events at all — so no further remote call; the total
number of remote calls across both accesses is that of the first access
alone (which can be zero on a cache hit, or one-per-series plus one for
`dataframe`). -/
theorem C2_idempotent_after_nonempty :
    (∀ gw env s v, (Source.sites gw env s).val = .ok v → v ≠ [] →
      Source.sites gw env (Source.sites gw env s).state
        = ⟨(Source.sites gw env s).state, [], .ok v⟩) ∧
    (∀ gw s p, (Site.site_info gw s).val = .ok p →
      Site.site_info gw (Site.site_info gw s).state
        = ⟨(Site.site_info gw s).state, [], .ok p⟩) ∧
    (∀ gw env s l, (Site.timeseries_list gw env s).val = .ok l → l ≠ [] →
      Site.timeseries_list gw env (Site.timeseries_list gw env s).state
        = ⟨(Site.timeseries_list gw env s).state, [], .ok l⟩) ∧
    (∀ gw env s df, (Site.dataframe gw env s).val = .ok df → dfTruthy df = true →
      (Site.dataframe gw env s).state._timeseries_list ≠ [] →
      Site.dataframe gw env (Site.dataframe gw env s).state
        = ⟨(Site.dataframe gw env s).state, [], .ok df⟩) ∧
    (∀ gw ts l, (TimeSeries.series gw ts).val = .ok l → l ≠ [] →
      TimeSeries.series gw (TimeSeries.series gw ts).state
        = ⟨(TimeSeries.series gw ts).state, [], .ok l⟩) ∧
    (∀ gw ts q, (TimeSeries.quantity gw ts).val = .ok (some q) →
      TimeSeries.quantity gw (TimeSeries.quantity gw ts).state
        = ⟨(TimeSeries.quantity gw ts).state, [], .ok (some q)⟩) := by
  refine ⟨?_, ?_, ?_, ?_, ?_, ?_⟩
  · intro gw env s v h hne
    have hst : (Source.sites gw env s).state._sites = v := by
      have hv := sites_val_ok gw env s
      rw [h] at hv
      exact (Except.ok.inj hv).symm
    cases hsv : (Source.sites gw env s).state._sites with
    | nil => exact absurd (hst.symm.trans hsv) hne
    | cons p ps =>
      have hpv : p :: ps = v := hsv ▸ hst
      rw [sites_of_populated gw env _ p ps hsv, hpv]
  · intro gw s p h
    exact site_info_of_populated gw _ p (site_info_state_of_ok gw s p h)
  · intro gw env s l h hne
    have hst := timeseries_list_state_of_ok gw env s l h
    cases hsv : (Site.timeseries_list gw env s).state._timeseries_list with
    | nil => exact absurd (hst.symm.trans hsv) hne
    | cons t ts =>
      have hpv : t :: ts = l := hsv ▸ hst
      rw [timeseries_list_of_populated gw env _ t ts hsv, hpv]
  · intro gw env s df h htr htl
    have hget := dataframe_state_of_ok gw env s df h
    cases hdf : (Site.dataframe gw env s).state._dataframe with
    | none =>
      rw [hdf] at hget
      simp at hget
      rw [hget] at htr
      simp [dfTruthy] at htr
    | some df0 =>
      rw [hdf] at hget
      simp at hget
      subst hget
      cases htl' : (Site.dataframe gw env s).state._timeseries_list with
      | nil => exact absurd htl' htl
      | cons t ts => exact dataframe_of_populated gw env _ t ts df0 htl' hdf htr
  · intro gw ts l h hne
    have hst : (TimeSeries.series gw ts).state._series = l := by
      have hv := series_val_ok gw ts
      rw [h] at hv
      exact (Except.ok.inj hv).symm
    cases hsv : (TimeSeries.series gw ts).state._series with
    | nil => exact absurd (hst.symm.trans hsv) hne
    | cons x xs =>
      have hpv : x :: xs = l := hsv ▸ hst
      rw [series_of_populated gw _ x xs hsv, hpv]
  · intro gw ts q h
    have hst : (TimeSeries.quantity gw ts).state._quantity = some q := by
      have hv := quantity_val_ok gw ts
      rw [h] at hv
      exact (Except.ok.inj hv).symm
    exact quantity_of_populated gw _ q hst

/-- C2 witness: the amended idempotence at concrete fixtures, for all six
lazy accessors. -/
theorem C2_idempotent_witness :
    (Source.sites gwOne envOff (Source.sites gwOne envOff srcFresh).state
       = ⟨(Source.sites gwOne envOff srcFresh).state, [],
          .ok ((Source.sites gwOne envOff srcFresh).state._sites)⟩)
    ∧ (Site.site_info gwOne (Site.site_info gwOne siteFresh).state
       = ⟨(Site.site_info gwOne siteFresh).state, [], .ok payload0⟩)
    ∧ (Site.timeseries_list gwOne envOff (Site.timeseries_list gwOne envOff siteFresh).state
       = ⟨(Site.timeseries_list gwOne envOff siteFresh).state, [],
          .ok ((Site.timeseries_list gwOne envOff siteFresh).state._timeseries_list)⟩)
    ∧ (Site.dataframe gwOne envOff (Site.dataframe gwOne envOff siteFresh).state
       = ⟨(Site.dataframe gwOne envOff siteFresh).state, [],
          .ok ((Site.dataframe gwOne envOff siteFresh).state._dataframe.getD [])⟩)
    ∧ (TimeSeries.series gwOne (TimeSeries.series gwOne ts0).state
       = ⟨(TimeSeries.series gwOne ts0).state, [],
          .ok ((TimeSeries.series gwOne ts0).state._series)⟩)
    ∧ (TimeSeries.quantity gwOne (TimeSeries.quantity gwOne ts0).state
       = ⟨(TimeSeries.quantity gwOne ts0).state, [], .ok (some "cfs")⟩) :=
  ⟨C2_idempotent_after_nonempty.1 gwOne envOff srcFresh _ rfl (by decide),
   C2_idempotent_after_nonempty.2.1 gwOne siteFresh payload0 rfl,
   C2_idempotent_after_nonempty.2.2.1 gwOne envOff siteFresh _ rfl (by decide),
   C2_idempotent_after_nonempty.2.2.2.1 gwOne envOff siteFresh _ rfl (by decide) (by decide),
   C2_idempotent_after_nonempty.2.2.2.2.1 gwOne ts0 _ rfl (by decide),
   C2_idempotent_after_nonempty.2.2.2.2.2 gwOne ts0 "cfs" rfl⟩

/-- C3 counterexample: when the get-values payload carries an empty value
series, a `quantity` access populates `_quantity` while `_series` stays at
its empty sentinel — one of the pair is populated and the other is not, and
a subsequent `series` access indeed fetches again. -/
theorem C3_counterexample :
    (TimeSeries.quantity gwEmpty ts0).state._quantity = some "m"
    ∧ (TimeSeries.quantity gwEmpty ts0).state._series = []
    ∧ (TimeSeries.series gwEmpty (TimeSeries.quantity gwEmpty ts0).state).events
        = [Event.getValues "NWISDV:01234" "NWIS:00060" "2010-01-02" "2010-03-04"] :=
  ⟨rfl, rfl, rfl⟩

/-- C3 amended: a single get-values call always assigns `_series` and
`_quantity` together, in one step, from one response — for both accessors.
Provided every get-values response carries a non-empty value series, no
reachable `TimeSeries` state has one of the pair populated (in the
emptiness-sentinel sense the accessors use) without the other; when a
response carries an empty series, `_quantity` can be populated while
`_series` remains at the empty sentinel. -/
theorem C3_atomic_pair :
    (∀ gw ts, ts._series = [] →
      TimeSeries.series gw ts
        = ⟨{ ts with
              _series := ((gw.GetValuesObject (ts.siteNetwork ++ ":" ++ ts.siteCode)
                (ts.var.vocabulary ++ ":" ++ ts.var.code) ts.begin_datetime.strftimeYMD
                ts.end_datetime.strftimeYMD).values),
              _quantity := (some ((gw.GetValuesObject (ts.siteNetwork ++ ":" ++ ts.siteCode)
                (ts.var.vocabulary ++ ":" ++ ts.var.code) ts.begin_datetime.strftimeYMD
                ts.end_datetime.strftimeYMD).unit)) },
           [Event.getValues (ts.siteNetwork ++ ":" ++ ts.siteCode)
              (ts.var.vocabulary ++ ":" ++ ts.var.code) ts.begin_datetime.strftimeYMD
              ts.end_datetime.strftimeYMD],
           .ok ((gw.GetValuesObject (ts.siteNetwork ++ ":" ++ ts.siteCode)
              (ts.var.vocabulary ++ ":" ++ ts.var.code) ts.begin_datetime.strftimeYMD
              ts.end_datetime.strftimeYMD).values)⟩) ∧
    (∀ gw ts, ts._quantity = none →
      TimeSeries.quantity gw ts
        = ⟨{ ts with
              _series := ((gw.GetValuesObject (ts.siteNetwork ++ ":" ++ ts.siteCode)
                (ts.var.vocabulary ++ ":" ++ ts.var.code) ts.begin_datetime.strftimeYMD
                ts.end_datetime.strftimeYMD).values),
              _quantity := (some ((gw.GetValuesObject (ts.siteNetwork ++ ":" ++ ts.siteCode)
                (ts.var.vocabulary ++ ":" ++ ts.var.code) ts.begin_datetime.strftimeYMD
                ts.end_datetime.strftimeYMD).unit)) },
           [Event.getValues (ts.siteNetwork ++ ":" ++ ts.siteCode)
              (ts.var.vocabulary ++ ":" ++ ts.var.code) ts.begin_datetime.strftimeYMD
              ts.end_datetime.strftimeYMD],
           .ok (some ((gw.GetValuesObject (ts.siteNetwork ++ ":" ++ ts.siteCode)
              (ts.var.vocabulary ++ ":" ++ ts.var.code) ts.begin_datetime.strftimeYMD
              ts.end_datetime.strftimeYMD).unit))⟩) ∧
    (∀ gw, (∀ a b c d, (gw.GetValuesObject a b c d).values ≠ []) →
      ∀ ts, TSReach gw ts → (ts._series = [] ↔ ts._quantity = none)) := by
  refine ⟨?_, ?_, ?_⟩
  · intro gw ts h
    simp [TimeSeries.series, h, TimeSeries._update_series,
      _pandas_series_from_wml_TimeSeriesResponseType]
  · intro gw ts h
    simp [TimeSeries.quantity, h, TimeSeries._update_series,
      _pandas_series_from_wml_TimeSeriesResponseType]
  · intro gw hgw ts hr
    induction hr with
    | init v ct m q b e sn sc => simp [TimeSeries.init]
    | fromWml w site => simp [_timeseries_from_wml_series, TimeSeries.init]
    | seriesStep ts hts ih =>
      cases hs : ts._series with
      | cons x xs =>
        rw [series_of_populated gw ts x xs hs]
        exact ih
      | nil =>
        simp [TimeSeries.series, hs, TimeSeries._update_series,
          _pandas_series_from_wml_TimeSeriesResponseType, hgw]
    | quantityStep ts hts ih =>
      cases hq : ts._quantity with
      | some q =>
        rw [quantity_of_populated gw ts q hq]
        exact ih
      | none =>
        simp [TimeSeries.quantity, hq, TimeSeries._update_series,
          _pandas_series_from_wml_TimeSeriesResponseType, hgw]

/-- C3 witness: the atomic assignment and the invariant at concrete
fixtures. -/
theorem C3_atomic_pair_witness :
    (TimeSeries.series gwOne ts0
       = ⟨{ ts0 with _series := [⟨0, 5⟩], _quantity := some "cfs" },
          [Event.getValues "NWISDV:01234" "NWIS:00060" "2010-01-02" "2010-03-04"],
          .ok [⟨0, 5⟩]⟩)
    ∧ (TimeSeries.quantity gwOne ts0
       = ⟨{ ts0 with _series := [⟨0, 5⟩], _quantity := some "cfs" },
          [Event.getValues "NWISDV:01234" "NWIS:00060" "2010-01-02" "2010-03-04"],
          .ok (some "cfs")⟩)
    ∧ (ts0._series = [] ↔ ts0._quantity = none) := by
  refine ⟨?_, ?_, ?_⟩
  · exact C3_atomic_pair.1 gwOne ts0 rfl
  · exact C3_atomic_pair.2.1 gwOne ts0 rfl
  · exact C3_atomic_pair.2.2 gwOne (fun a b c d h => by simp [gwOne] at h) ts0
      (TSReach.init var0 3 "m1" "qc1" ⟨2010, 1, 2⟩ ⟨2010, 3, 4⟩ "NWISDV" "01234")

/-- C4: for every Source with caching enabled and an available cache module,
if the cache store returns a non-empty site mapping (and the backing mapping
is still unpopulated, the only state from which an access consults the
cache), then accessing `sites` adopts exactly the cached mapping, issuing
only the cache read — the list-sites remote operation is never invoked. -/
theorem C4_cache_precedence (gw : Gateway) (env : CacheEnv) (s : Source)
    (huse : s._use_cache = true) (hav : env.available = true)
    (hc : env.cachedSites ≠ []) (hs : s._sites = []) :
    Source.sites gw env s
      = ⟨{ s with _sites := env.cachedSites }, [Event.cacheGetSites],
         .ok env.cachedSites⟩ := by
  cases hcs : env.cachedSites with
  | nil => exact absurd hcs hc
  | cons c cs => simp [Source.sites, hs, Source._update_sites, huse, hav, hcs]

/-- C4 witness: a concrete cache-enabled source adopting the cached
mapping with no remote call. -/
theorem C4_cache_precedence_witness :
    Source.sites gwOne envCachedSites srcCache
      = ⟨{ srcCache with _sites := envCachedSites.cachedSites },
         [Event.cacheGetSites], .ok envCachedSites.cachedSites⟩ :=
  C4_cache_precedence gwOne envCachedSites srcCache rfl rfl (by decide) rfl

/-- C5: on a freshly constructed Site with caching off, accessing
`dataframe` issues exactly one get-site-detail call followed by exactly one
get-values call per series of the catalog (in that order), and leaves the
state with `site_info`, `timeseries_list` and the table all populated, the
table being the returned value. -/
theorem C5_dataframe_ordering (gw : Gateway) (env : CacheEnv) (s : Site)
    (hcache : (s._use_cache && env.available) = false)
    (hsi : s._site_info = none) (htl : s._timeseries_list = [])
    (hdf : s._dataframe = none) (entry : WmlSiteEntry) (cat : WmlSeriesCatalog)
    (hp : gw.GetSiteInfoObject (s.network ++ ":" ++ s.code) = ⟨[entry]⟩)
    (hcat : entry.seriesCatalog = [cat]) :
    (Site.dataframe gw env s).events
      = Event.getSiteInfo (s.network ++ ":" ++ s.code)
          :: cat.series.map (fun w => Event.getValues (s.network ++ ":" ++ s.code)
              (w.var.vocabulary ++ ":" ++ w.var.code) w.beginDate.strftimeYMD
              w.endDate.strftimeYMD)
    ∧ (Site.dataframe gw env s).state._site_info = some ⟨[entry]⟩
    ∧ (Site.dataframe gw env s).state._timeseries_list.length = cat.series.length
    ∧ ∃ df, (Site.dataframe gw env s).state._dataframe = some df
          ∧ (Site.dataframe gw env s).val = .ok df := by
  obtain ⟨c, nm, i, nw, loc, su, uc, tl, dfr, si⟩ := s
  simp only at hsi htl hdf hcache hp ⊢
  subst hsi htl hdf
  have hukey : Site._update_site_info gw ⟨c, nm, i, nw, loc, su, uc, [], none, none⟩
      = ⟨⟨c, nm, i, nw, loc, su, uc, [], none, some ⟨[entry]⟩⟩,
         [Event.getSiteInfo (nw ++ ":" ++ c)], .ok ()⟩ := by
    simp [Site._update_site_info, hp, hcat]
  have htl1 : Site.timeseries_list gw env ⟨c, nm, i, nw, loc, su, uc, [], none, some ⟨[entry]⟩⟩
      = ⟨⟨c, nm, i, nw, loc, su, uc,
          (cat.series.map (fun w => _timeseries_from_wml_series w
            ⟨c, nm, i, nw, loc, su, uc, [], none, some ⟨[entry]⟩⟩)),
          none, some ⟨[entry]⟩⟩, [],
         .ok (cat.series.map (fun w => _timeseries_from_wml_series w
            ⟨c, nm, i, nw, loc, su, uc, [], none, some ⟨[entry]⟩⟩))⟩ := by
    simpa using timeseries_list_fresh_populated_info gw env
      ⟨c, nm, i, nw, loc, su, uc, [], none, some ⟨[entry]⟩⟩ entry cat
      (by simpa using hcache) rfl rfl hcat
  have hrun : Site.dataframe gw env ⟨c, nm, i, nw, loc, su, uc, [], none, none⟩
      = ⟨⟨c, nm, i, nw, loc, su, uc,
          ((cat.series.map (fun w => _timeseries_from_wml_series w
            ⟨c, nm, i, nw, loc, su, uc, [], none, some ⟨[entry]⟩⟩)).map
            (fun ts => (TimeSeries.series gw ts).state)),
          (some (dictFromPairs (((cat.series.map (fun w => _timeseries_from_wml_series w
            ⟨c, nm, i, nw, loc, su, uc, [], none, some ⟨[entry]⟩⟩)).map
            (fun ts => (TimeSeries.series gw ts).state)).map
            (fun ts => (ts.var.code, ts._series))))),
          some ⟨[entry]⟩⟩,
         Event.getSiteInfo (nw ++ ":" ++ c)
           :: cat.series.map (fun w => Event.getValues (nw ++ ":" ++ c)
                (w.var.vocabulary ++ ":" ++ w.var.code) w.beginDate.strftimeYMD
                w.endDate.strftimeYMD),
         .ok (dictFromPairs (((cat.series.map (fun w => _timeseries_from_wml_series w
            ⟨c, nm, i, nw, loc, su, uc, [], none, some ⟨[entry]⟩⟩)).map
            (fun ts => (TimeSeries.series gw ts).state)).map
            (fun ts => (ts.var.code, ts._series))))⟩ := by
    simp only [Site.dataframe, hukey, Site.dataframeFinish,
      Site._update_dataframe, htl1, foldl_dataframeFoldStep, List.nil_append,
      List.map_map, Function.comp, series_fresh, flatten_map_singleton]
    simp
    rw [show ((fun ts => (TimeSeries.series gw ts).events) ∘ fun w =>
          _timeseries_from_wml_series w
            ⟨c, nm, i, nw, loc, su, uc, [], none, some ⟨[entry]⟩⟩)
        = fun w : WmlSeries => [Event.getValues (nw ++ ":" ++ c)
            (w.var.vocabulary ++ ":" ++ w.var.code) w.beginDate.strftimeYMD
            w.endDate.strftimeYMD]
      from funext (fun w => by simp [series_fresh])]
    exact flatten_map_singleton cat.series _
  rw [hrun]
  refine ⟨rfl, rfl, by simp, ⟨_, rfl, rfl⟩⟩

/-- C5 witness: the fresh-dataframe run at concrete fixtures. -/
theorem C5_dataframe_ordering_witness :
    (Site.dataframe gwOne envOff siteFresh).events
      = Event.getSiteInfo (siteFresh.network ++ ":" ++ siteFresh.code)
          :: (⟨[wmlSeries0]⟩ : WmlSeriesCatalog).series.map
              (fun w => Event.getValues (siteFresh.network ++ ":" ++ siteFresh.code)
                (w.var.vocabulary ++ ":" ++ w.var.code) w.beginDate.strftimeYMD
                w.endDate.strftimeYMD)
    ∧ (Site.dataframe gwOne envOff siteFresh).state._site_info
        = some ⟨[⟨[⟨[wmlSeries0]⟩]⟩]⟩
    ∧ (Site.dataframe gwOne envOff siteFresh).state._timeseries_list.length
        = (⟨[wmlSeries0]⟩ : WmlSeriesCatalog).series.length
    ∧ ∃ df, (Site.dataframe gwOne envOff siteFresh).state._dataframe = some df
          ∧ (Site.dataframe gwOne envOff siteFresh).val = .ok df :=
  C5_dataframe_ordering gwOne envOff siteFresh rfl rfl rfl rfl
    ⟨[⟨[wmlSeries0]⟩]⟩ ⟨[wmlSeries0]⟩ rfl rfl

/-- C6: constructing any entity (Source, Site, TimeSeries, Variable, Units)
issues no collaborator events — no remote call and no cache access; remote
interaction is deferred to first access of a lazy attribute.  (The suds
client handle created by `Source.__init__` is the transport collaborator,
excluded from this core and modelled as the `Gateway` argument of the
accessors.) -/
theorem C6_construction_no_io :
    (∀ url uc, (Source.init url uc).2 = []) ∧
    (∀ c n i nw lat lon su uc, (Site.init c n i nw lat lon su uc).2 = []) ∧
    (∀ v ct m q b e sn sc, (TimeSeries.init v ct m q b e sn sc).2 = []) ∧
    (∀ n c i vo u nd, (Variable.init n c i vo u nd).2 = []) ∧
    (∀ n a c, (Units.init n a c).2 = []) :=
  ⟨fun _ _ => rfl, fun _ _ _ _ _ _ _ _ => rfl, fun _ _ _ _ _ _ _ _ => rfl,
   fun _ _ _ _ _ _ => rfl, fun _ _ _ => rfl⟩

/-- C7: for every Source with caching enabled whose cache store is empty, a
single access to `sites` (from the unpopulated state) reads the cache,
fetches the site list remotely, and then writes that full fetched site list
to the cache store before returning. -/
theorem C7_cache_population (gw : Gateway) (env : CacheEnv) (s : Source)
    (huse : s._use_cache = true) (hav : env.available = true)
    (hc : env.cachedSites = []) (hs : s._sites = []) :
    Source.sites gw env s =
      ⟨{ s with _sites := (dictFromPairs
            (((gw.GetSites "").site.map (fun d => _site_from_wml_siteInfo d s.url)).map
              (fun t => (t.code, t)))) },
       [Event.cacheGetSites, Event.getSites "",
        Event.cachePutSites ((gw.GetSites "").site.map (fun d => _site_from_wml_siteInfo d s.url))],
       .ok (dictFromPairs
            (((gw.GetSites "").site.map (fun d => _site_from_wml_siteInfo d s.url)).map
              (fun t => (t.code, t))))⟩ := by
  simp [Source.sites, hs, Source._update_sites, huse, hav, hc,
    Source.fetchSitesRemote]

/-- C7 witness: a concrete cache-enabled source with an empty cache store
fetching remotely and writing the fetched list back to the cache. -/
theorem C7_cache_population_witness :
    Source.sites gwOne envCacheEmpty srcCache =
      ⟨{ srcCache with _sites := (dictFromPairs
            (((gwOne.GetSites "").site.map
                (fun d => _site_from_wml_siteInfo d srcCache.url)).map
              (fun t => (t.code, t)))) },
       [Event.cacheGetSites, Event.getSites "",
        Event.cachePutSites ((gwOne.GetSites "").site.map
          (fun d => _site_from_wml_siteInfo d srcCache.url))],
       .ok (dictFromPairs
            (((gwOne.GetSites "").site.map
                (fun d => _site_from_wml_siteInfo d srcCache.url)).map
              (fun t => (t.code, t))))⟩ :=
  C7_cache_population gwOne envCacheEmpty srcCache rfl rfl rfl rfl

/-- C8: for a Source with caching disabled whose gateway list-sites
operation returns exactly one descriptor with network NWISDV and code
01234, accessing `sites` yields a mapping containing exactly the key 01234,
mapped to a Site whose network is NWISDV and whose source back-reference
(flattened to the source URL) is this source. -/
theorem C8_single_site_example (gw : Gateway) (env : CacheEnv) (s : Source)
    (d : WmlSiteInfo) (huse : s._use_cache = false) (hs : s._sites = [])
    (hresp : gw.GetSites "" = ⟨[d]⟩) (hn : d.network = "NWISDV")
    (hc : d.code = "01234") :
    ∃ site : Site, (Source.sites gw env s).val = .ok [("01234", site)]
      ∧ site.network = "NWISDV" ∧ site.sourceUrl = some s.url := by
  refine ⟨_site_from_wml_siteInfo d s.url, ?_, ?_, ?_⟩
  · simp [Source.sites, hs, Source._update_sites, huse, Source.fetchSitesRemote,
      hresp, dictFromPairs, dictInsert, _site_from_wml_siteInfo, Site.init, hc]
  · simp [_site_from_wml_siteInfo, Site.init, hn]
  · simp [_site_from_wml_siteInfo, Site.init]

/-- C8 witness: the concrete example source and gateway. -/
theorem C8_single_site_example_witness :
    ∃ site : Site, (Source.sites gwOne envOff srcFresh).val = .ok [("01234", site)]
      ∧ site.network = "NWISDV" ∧ site.sourceUrl = some srcFresh.url :=
  C8_single_site_example gwOne envOff srcFresh d0 rfl rfl rfl rfl rfl

/-- C10 counterexample: for a Site whose series catalog is empty (cache
off), the first `timeseries_list` access issues one remote detail call and
leaves the list empty, but the SECOND access issues no collaborator event
at all — in particular no fresh remote call — because the site-detail
payload is memoized and `_update_timeseries_list` itself never makes a
remote call directly. -/
theorem C10_counterexample :
    countRemote (Site.timeseries_list gwEmpty envOff siteFresh).events = 1
    ∧ (Site.timeseries_list gwEmpty envOff siteFresh).state._timeseries_list = []
    ∧ (Site.timeseries_list gwEmpty envOff
        (Site.timeseries_list gwEmpty envOff siteFresh).state).events = [] :=
  ⟨rfl, rfl, rfl⟩

/-- C10 amended: the empty backing value is the only population sentinel,
so an empty fetched result is never memoized and the update routine re-runs
on every access.  For `Source.sites` (cache off, empty fetch) and
`TimeSeries.series` (empty value series) every access issues a fresh remote
call; but for `Site.timeseries_list` with an empty series catalog the
re-run issues NO fresh remote call once `site_info` is populated — only the
catalog extraction repeats. -/
theorem C10_empty_never_memoized :
    (∀ gw env s, (s._use_cache && env.available) = false →
      (gw.GetSites "").site = [] → s._sites = [] →
      Source.sites gw env s = ⟨s, [Event.getSites ""], .ok []⟩) ∧
    (∀ gw ts, ts._series = [] →
      (gw.GetValuesObject (ts.siteNetwork ++ ":" ++ ts.siteCode)
        (ts.var.vocabulary ++ ":" ++ ts.var.code) ts.begin_datetime.strftimeYMD
        ts.end_datetime.strftimeYMD).values = [] →
      (TimeSeries.series gw ts).state._series = []
      ∧ countRemote (TimeSeries.series gw ts).events = 1
      ∧ countRemote (TimeSeries.series gw (TimeSeries.series gw ts).state).events = 1) ∧
    (∀ gw env s entry cat, (s._use_cache && env.available) = false →
      s._site_info = some ⟨[entry]⟩ → entry.seriesCatalog = [cat] →
      cat.series = [] → s._timeseries_list = [] →
      Site.timeseries_list gw env s = ⟨s, [], .ok []⟩) := by
  refine ⟨?_, ?_, ?_⟩
  · intro gw env s hcache hresp hs
    obtain ⟨u, uc, st⟩ := s
    simp only at hcache hs
    subst hs
    simp [Source.sites, Source._update_sites, hcache, Source.fetchSitesRemote,
      hresp, dictFromPairs]
  · intro gw ts hs hresp
    refine ⟨?_, ?_, ?_⟩
    · simp [TimeSeries.series, hs, TimeSeries._update_series,
        _pandas_series_from_wml_TimeSeriesResponseType, hresp]
    · simp [TimeSeries.series, hs, TimeSeries._update_series,
        _pandas_series_from_wml_TimeSeriesResponseType, countRemote, Event.isRemote]
    · simp [TimeSeries.series, hs, TimeSeries._update_series,
        _pandas_series_from_wml_TimeSeriesResponseType, hresp, countRemote,
        Event.isRemote]
  · intro gw env s entry cat hcache hsi hcat hser htl
    obtain ⟨c, nm, i, nw, loc, su, uc, tl, dfr, si⟩ := s
    simp only at hcache hsi htl
    subst hsi htl
    have hb := build_tsl_of_populated gw
      ⟨c, nm, i, nw, loc, su, uc, [], dfr, some ⟨[entry]⟩⟩ entry cat rfl hcat
    rw [hser] at hb
    simp only [List.map_nil] at hb
    simp [Site.timeseries_list, Site._update_timeseries_list, hcache, hb]

/-- C10 witness: the empty-refetch behavior at concrete fixtures for
`sites`, `series` and `timeseries_list`. -/
theorem C10_empty_never_memoized_witness :
    (Source.sites gwEmpty envOff srcFresh = ⟨srcFresh, [Event.getSites ""], .ok []⟩)
    ∧ ((TimeSeries.series gwEmpty ts0).state._series = []
      ∧ countRemote (TimeSeries.series gwEmpty ts0).events = 1
      ∧ countRemote (TimeSeries.series gwEmpty (TimeSeries.series gwEmpty ts0).state).events = 1)
    ∧ (Site.timeseries_list gwEmpty envOff sitePopEmptyCatalog
        = ⟨sitePopEmptyCatalog, [], .ok []⟩) :=
  ⟨C10_empty_never_memoized.1 gwEmpty envOff srcFresh rfl rfl rfl,
   C10_empty_never_memoized.2.1 gwEmpty ts0 rfl rfl,
   C10_empty_never_memoized.2.2 gwEmpty envOff sitePopEmptyCatalog ⟨[⟨[]⟩]⟩ ⟨[]⟩
     rfl rfl rfl rfl rfl⟩

/-- C9: `Source.__len__` evaluates the length of the site mapping but has
no return statement, so it returns `None`; hence the built-in `len()`
applied to any Source fails with a `TypeError` instead of returning the
number of sites, however many sites are populated. -/
theorem C9_len_type_error :
    (∀ s : Source, Source.lenMethod s = none) ∧
    (∀ s : Source, builtinLen s
      = .error (Err.typeError "object of type NoneType cannot be interpreted as an integer")) :=
  ⟨fun _ => rfl, fun _ => rfl⟩

end PyHIS
